import Mathlib

/-!
Shallow embedding of the button pipeline of `bekantfirmware.X/btn/btn.c`:
the software debouncer (`btn_debounce`), the gesture recognizer
(`btn_gesture`) and the per-tick dispatcher (`btn_timer`).  The C code
keeps its state in `static` local structs; here every function takes the
state explicitly and returns the updated state alongside its C return
value.  `uint8_t` counters are modelled as `Nat` with an explicit
`% 256` at each increment.
-/

namespace Bekant

/-- The two raw button lines as read from PORTB.  Each field is the raw
bit value of the line: the buttons are active low, so `false` means the
button is pressed (`PRESSED(b)` in C is `!b`). -/
structure ButtonState_t where
  DOWN : Bool
  UP : Bool
deriving DecidableEq, Repr

/-- C macro `PRESSED(b) (!b)`. -/
def PRESSED (b : Bool) : Bool := !b

/-- C macro `RELEASED(b) (b)`. -/
def RELEASED (b : Bool) : Bool := b

/-- C macro `BUTTON_CHANGE(a, b) ((a.UP != b.UP) || (a.DOWN != b.DOWN))`. -/
def BUTTON_CHANGE (a b : ButtonState_t) : Bool :=
  (a.UP != b.UP) || (a.DOWN != b.DOWN)

/-- Debouncer state (`Debounce_t` in C): a `uint8_t` run-length counter
and the last raw sample seen. -/
structure Debounce_t where
  count : Nat
  last_state : ButtonState_t
deriving DecidableEq, Repr

/-- `#define DEBOUNCE_THRESHOLD 200`. -/
def DEBOUNCE_THRESHOLD : Nat := 200

/-- `btn_debounce` from btn.c, with the `static Debounce_t debouncer`
made explicit.  Returns the C function's boolean result together with
the updated debouncer state. -/
def btn_debounce (d : Debounce_t) (now_btn : ButtonState_t) : Bool × Debounce_t :=
  let d :=
    if BUTTON_CHANGE d.last_state now_btn then
      { count := 0, last_state := now_btn }
    else
      { d with count := (d.count + 1) % 256 }
  if DEBOUNCE_THRESHOLD ≤ d.count then
    (true, { d with count := 0 })
  else
    (false, d)

/-- Initial value of the `static Debounce_t debouncer = {0}`: count 0 and
`last_state` all bits zero (i.e. both lines reading low). -/
def debounceInit : Debounce_t :=
  { count := 0, last_state := { DOWN := false, UP := false } }

/-- The `INPUT_t` enum from btn.h. -/
inductive INPUT_t where
  | INPUT_IDLE
  | INPUT_UP
  | INPUT_DOWN
  | INPUT_DOUBLE_UP
  | INPUT_DOUBLE_DOWN
  | INPUT_SAVE
deriving DecidableEq, Repr

export INPUT_t (INPUT_IDLE INPUT_UP INPUT_DOWN INPUT_DOUBLE_UP INPUT_DOUBLE_DOWN INPUT_SAVE)

/-- Gesture recognizer state (`InputState_t` in C).  `save_hold` and
`double_click_timer` are `uint8_t` in the source. -/
structure InputState_t where
  save_hold : Nat
  double_click_timer : Nat
  waiting_for_second_up : Bool
  waiting_for_second_down : Bool
  state : INPUT_t
deriving DecidableEq, Repr

/-- `#define SAVE_HOLD_THRESHOLD 60`. -/
def SAVE_HOLD_THRESHOLD : Nat := 60

/-- `#define DOUBLE_CLICK_WINDOW 10`. -/
def DOUBLE_CLICK_WINDOW : Nat := 10

/-- Initial value of the `static InputState_t input` in `btn_gesture`. -/
def gestureInit : InputState_t :=
  { save_hold := 0
    double_click_timer := 0
    waiting_for_second_up := false
    waiting_for_second_down := false
    state := INPUT_IDLE }

/-- The prelude of `btn_gesture`: decrement the double-click timer if it
is active, and reset both waiting flags if it thereby expires. -/
def decrementDoubleClickTimer (input : InputState_t) : InputState_t :=
  if 0 < input.double_click_timer then
    let t := input.double_click_timer - 1
    if t = 0 then
      { input with
          double_click_timer := t
          waiting_for_second_up := false
          waiting_for_second_down := false }
    else
      { input with double_click_timer := t }
  else input

/-- `btn_gesture` from btn.c with the static state made explicit.
First the double-click timer is decremented (clearing both waiting
flags when it reaches 0), then the state machine switch runs; the C
function returns `input.state` of the updated state. -/
def btn_gesture (input0 : InputState_t) (btn : ButtonState_t) : INPUT_t × InputState_t :=
  let input := decrementDoubleClickTimer input0
  let input :=
    match input.state with
    | INPUT_IDLE =>
      if PRESSED btn.UP && RELEASED btn.DOWN then
        if input.waiting_for_second_up then
          { input with
              waiting_for_second_up := false
              double_click_timer := 0
              state := INPUT_DOUBLE_UP }
        else
          { input with state := INPUT_UP }
      else if RELEASED btn.UP && PRESSED btn.DOWN then
        if input.waiting_for_second_down then
          { input with
              waiting_for_second_down := false
              double_click_timer := 0
              state := INPUT_DOUBLE_DOWN }
        else
          { input with state := INPUT_DOWN }
      else if PRESSED btn.UP && PRESSED btn.DOWN then
        let sh := (input.save_hold + 1) % 256
        if SAVE_HOLD_THRESHOLD ≤ sh then
          { input with save_hold := 0, state := INPUT_SAVE }
        else
          { input with save_hold := sh, state := INPUT_IDLE }
      else
        { input with state := INPUT_IDLE }
    | INPUT_SAVE =>
      if PRESSED btn.UP && PRESSED btn.DOWN then
        { input with state := INPUT_SAVE }
      else
        { input with state := INPUT_IDLE }
    | INPUT_UP =>
      if PRESSED btn.UP && RELEASED btn.DOWN then
        { input with state := INPUT_UP }
      else if RELEASED btn.UP && PRESSED btn.DOWN then
        { input with state := INPUT_DOWN }
      else if RELEASED btn.UP && RELEASED btn.DOWN then
        { input with
            waiting_for_second_up := true
            double_click_timer := DOUBLE_CLICK_WINDOW
            state := INPUT_IDLE }
      else if PRESSED btn.UP && PRESSED btn.DOWN then
        { input with state := INPUT_IDLE }
      else
        input
    | INPUT_DOWN =>
      if PRESSED btn.UP && RELEASED btn.DOWN then
        { input with state := INPUT_UP }
      else if RELEASED btn.UP && PRESSED btn.DOWN then
        { input with state := INPUT_DOWN }
      else if RELEASED btn.UP && RELEASED btn.DOWN then
        { input with
            waiting_for_second_down := true
            double_click_timer := DOUBLE_CLICK_WINDOW
            state := INPUT_IDLE }
      else if PRESSED btn.UP && PRESSED btn.DOWN then
        { input with state := INPUT_IDLE }
      else
        input
    | INPUT_DOUBLE_UP =>
      if RELEASED btn.UP && RELEASED btn.DOWN then
        { input with state := INPUT_IDLE }
      else
        { input with state := INPUT_DOUBLE_UP }
    | INPUT_DOUBLE_DOWN =>
      if RELEASED btn.UP && RELEASED btn.DOWN then
        { input with state := INPUT_IDLE }
      else
        { input with state := INPUT_DOUBLE_DOWN }
  (input.state, input)

/-- State of `btn_timer`: the two static component states plus the
`static INPUT_t last_input`. -/
structure TimerState where
  debouncer : Debounce_t
  input : InputState_t
  last_input : INPUT_t
deriving DecidableEq, Repr

/-- Initial `btn_timer` state: both component states zero-initialized
and `last_input = INPUT_IDLE`. -/
def timerInit : TimerState :=
  { debouncer := debounceInit, input := gestureInit, last_input := INPUT_IDLE }

/-- One invocation of `btn_timer` from btn.c on the raw sample read from
PORTB.  The first component records the invocation of the external
callback `btn_report_gesture` this tick, if any: the source calls it
unconditionally (through a bare function pointer) whenever the
debounced gesture differs from `last_input`. -/
def btn_timer (s : TimerState) (button_state : ButtonState_t) : Option INPUT_t × TimerState :=
  let conf := btn_debounce s.debouncer button_state
  if conf.1 then
    let g := btn_gesture s.input button_state
    if g.1 ≠ s.last_input then
      (some g.1, { debouncer := conf.2, input := g.2, last_input := g.1 })
    else
      (none, { s with debouncer := conf.2, input := g.2 })
  else
    (none, { s with debouncer := conf.2 })

/-- Raw sample: UP pressed, DOWN released (active low). -/
def upOnly : ButtonState_t := { DOWN := true, UP := false }

/-- Raw sample: DOWN pressed, UP released (active low). -/
def downOnly : ButtonState_t := { DOWN := false, UP := true }

/-- Raw sample: both lines pressed (active low). -/
def bothBtn : ButtonState_t := { DOWN := false, UP := false }

/-- Raw sample: both lines released (active low). -/
def neitherBtn : ButtonState_t := { DOWN := true, UP := true }

/-- The boolean results of `btn_debounce` over a sample sequence. -/
def debounceOutputs : Debounce_t → List ButtonState_t → List Bool
  | _, [] => []
  | d, b :: bs =>
    (btn_debounce d b).1 :: debounceOutputs (btn_debounce d b).2 bs

/-- The recognizer state after feeding a sequence of confirmed samples
through `btn_gesture`. -/
def gestureRun : InputState_t → List ButtonState_t → InputState_t
  | g, [] => g
  | g, b :: bs => gestureRun (btn_gesture g b).2 bs

/-- The gestures returned by `btn_gesture` over a sequence of confirmed
samples. -/
def gestureOutputs : InputState_t → List ButtonState_t → List INPUT_t
  | _, [] => []
  | g, b :: bs => (btn_gesture g b).1 :: gestureOutputs (btn_gesture g b).2 bs

/-- The callback invocations performed by `btn_timer` over a raw sample
sequence, in order. -/
def timerCalls : TimerState → List ButtonState_t → List INPUT_t
  | _, [] => []
  | s, b :: bs =>
    match btn_timer s b with
    | (some g, s1) => g :: timerCalls s1 bs
    | (none, s1) => timerCalls s1 bs

/-- The gesture values produced on the confirmed ticks of a raw sample
sequence: the debouncer filters the ticks and the recognizer advances
only on confirmed ones, exactly as `btn_timer` composes them. -/
def pipelineGestures : Debounce_t → InputState_t → List ButtonState_t → List INPUT_t
  | _, _, [] => []
  | d, g, b :: bs =>
    let conf := btn_debounce d b
    if conf.1 then
      (btn_gesture g b).1 :: pipelineGestures conf.2 (btn_gesture g b).2 bs
    else
      pipelineGestures conf.2 g bs

/-- Modelled from the spec: the Dispatcher's de-duplication, "if
`new_gesture != last_reported`, set `last_reported = new_gesture` and
invoke the external callback with `new_gesture`; otherwise no-op".
Applied to a gesture sequence it keeps exactly the values that differ
from the previously reported one. -/
def dedupFrom (prev : INPUT_t) : List INPUT_t → List INPUT_t
  | [] => []
  | g :: gs => if g = prev then dedupFrom prev gs else g :: dedupFrom g gs

end Bekant

namespace Bekant

/-- Splitting a confirmed-sample sequence splits the recognizer run. -/
theorem gestureRun_append (g : InputState_t) (xs ys : List ButtonState_t) :
    gestureRun g (xs ++ ys) = gestureRun (gestureRun g xs) ys := by
  induction xs generalizing g with
  | nil => rfl
  | cons x xs ih => simp [gestureRun, ih]

/-- Splitting a confirmed-sample sequence splits the gesture outputs. -/
theorem gestureOutputs_append (g : InputState_t) (xs ys : List ButtonState_t) :
    gestureOutputs g (xs ++ ys) =
      gestureOutputs g xs ++ gestureOutputs (gestureRun g xs) ys := by
  induction xs generalizing g with
  | nil => rfl
  | cons x xs ih => simp [gestureOutputs, gestureRun, ih]

/-- Claim C4: from the initial recognizer state, `SAVE_HOLD_THRESHOLD = 60`
consecutive confirmed Both samples return `INPUT_IDLE` 59 times and then
`INPUT_SAVE`; the hold counter is back at 0 when Save is entered, and a
confirmed Neither then returns the gesture to `INPUT_IDLE`. -/
theorem save_hold_gesture :
    gestureOutputs gestureInit
        (List.replicate SAVE_HOLD_THRESHOLD bothBtn ++ [neitherBtn]) =
      List.replicate 59 INPUT_IDLE ++ [INPUT_SAVE, INPUT_IDLE] ∧
    (gestureRun gestureInit (List.replicate SAVE_HOLD_THRESHOLD bothBtn)).state =
      INPUT_SAVE ∧
    (gestureRun gestureInit (List.replicate SAVE_HOLD_THRESHOLD bothBtn)).save_hold = 0 := by
  refine ⟨by decide, by decide, by decide⟩

/-- Claim C5, counterexample: with 9 intervening confirmed Neither ticks the
second UpOnly falls exactly `DOUBLE_CLICK_WINDOW = 10` confirmed ticks after
the Neither — within the window as the claim words it — yet the gesture
returned on that tick is not `INPUT_DOUBLE_UP` (it is `INPUT_UP`): the
per-call timer decrement reaches 0 on the press tick and clears the
waiting flag before the state machine runs. -/
theorem double_click_boundary_not_double :
    ¬ ((gestureOutputs gestureInit
          (([upOnly, neitherBtn] ++ List.replicate 9 neitherBtn) ++ [upOnly])).getLastD
            INPUT_IDLE = INPUT_DOUBLE_UP) := by
  decide

/-- Claim C5, amended: starting from the initial state, the confirmed
sequence UpOnly, Neither, then `j` confirmed Neither ticks, then UpOnly
returns `INPUT_DOUBLE_UP` on the second UpOnly precisely when that press
falls strictly within the window, i.e. at most `DOUBLE_CLICK_WINDOW - 1 = 9`
confirmed ticks after the Neither (`j + 1 < DOUBLE_CLICK_WINDOW`). -/
theorem double_click_within_window (j : Nat) (hj : j + 1 < DOUBLE_CLICK_WINDOW) :
    (gestureOutputs gestureInit
        (([upOnly, neitherBtn] ++ List.replicate j neitherBtn) ++ [upOnly])).getLastD
      INPUT_IDLE = INPUT_DOUBLE_UP := by
  have h9 : j < 9 := by
    simp only [DOUBLE_CLICK_WINDOW] at hj
    omega
  interval_cases j <;> decide

/-- Witness for the amended claim C5 at 4 intervening Neither ticks. -/
theorem double_click_within_window_witness :
    4 + 1 < DOUBLE_CLICK_WINDOW ∧
    (gestureOutputs gestureInit
        (([upOnly, neitherBtn] ++ List.replicate 4 neitherBtn) ++ [upOnly])).getLastD
      INPUT_IDLE = INPUT_DOUBLE_UP :=
  ⟨by decide, double_click_within_window 4 (by decide)⟩

/-- Claim C1: over 201 ticks of a constant UpOnly raw sample from the
initial state, `btn_timer` reaches a confirmed tick whose gesture
(`INPUT_UP`) differs from `last_input` and performs exactly one invocation
of the external callback.  The source calls `btn_report_gesture` through a
bare function pointer with no null guard, so when the consumer has not
assigned it this invocation dereferences a null pointer — not the safe
no-op the claim requires. -/
theorem timer_invokes_callback_unconditionally :
    timerCalls timerInit (List.replicate 201 upOnly) = [INPUT_UP] := by
  decide

end Bekant

namespace Bekant

/-- The timer prelude never changes the FSM state field. -/
theorem decrementDoubleClickTimer_state (st : InputState_t) :
    (decrementDoubleClickTimer st).state = st.state := by
  unfold decrementDoubleClickTimer
  dsimp only
  split_ifs <;> rfl

/-- The timer prelude never changes the save-hold counter. -/
theorem decrementDoubleClickTimer_save_hold (st : InputState_t) :
    (decrementDoubleClickTimer st).save_hold = st.save_hold := by
  unfold decrementDoubleClickTimer
  dsimp only
  split_ifs <;> rfl

/-- With an inactive timer, a Neither sample in `INPUT_IDLE` leaves the
recognizer state unchanged. -/
theorem btn_gesture_neither_idle (st : InputState_t)
    (ht : st.double_click_timer = 0) (hs : st.state = INPUT_IDLE) :
    btn_gesture st neitherBtn = (INPUT_IDLE, st) := by
  rcases st with ⟨sh, t, wu, wd, s⟩
  simp only at ht hs
  subst ht
  subst hs
  simp [btn_gesture, decrementDoubleClickTimer, PRESSED, RELEASED, neitherBtn]

/-- With an inactive timer, any run of Neither samples in `INPUT_IDLE`
leaves the recognizer state unchanged. -/
theorem gestureRun_neither_fixpoint (st : InputState_t)
    (ht : st.double_click_timer = 0) (hs : st.state = INPUT_IDLE) :
    ∀ n : Nat, gestureRun st (List.replicate n neitherBtn) = st := by
  intro n
  induction n with
  | zero => rfl
  | succ n ih =>
    rw [List.replicate_succ]
    show gestureRun (btn_gesture st neitherBtn).2 (List.replicate n neitherBtn) = st
    rw [btn_gesture_neither_idle st ht hs]
    exact ih

end Bekant

namespace Bekant

/-- Claim C6: starting from the initial state, in the confirmed sequence
UpOnly, Neither, then `j ≥ DOUBLE_CLICK_WINDOW` confirmed Neither ticks,
then UpOnly, the second UpOnly falls after the window (more than
`DOUBLE_CLICK_WINDOW = 10` confirmed ticks after the Neither), the timer
has expired and cleared the waiting flag, and the gesture returned on
that tick is `INPUT_UP`, a fresh single click, not `INPUT_DOUBLE_UP`. -/
theorem double_click_window_expired (j : Nat) (hj : DOUBLE_CLICK_WINDOW ≤ j) :
    (gestureOutputs gestureInit
        (([upOnly, neitherBtn] ++ List.replicate j neitherBtn) ++ [upOnly])).getLastD
      INPUT_IDLE = INPUT_UP := by
  obtain ⟨m, rfl⟩ : ∃ m, j = 10 + m := by
    refine ⟨j - 10, ?_⟩
    simp only [DOUBLE_CLICK_WINDOW] at hj
    omega
  rw [gestureOutputs_append]
  have houts : ∀ st : InputState_t,
      gestureOutputs st [upOnly] = [(btn_gesture st upOnly).1] := fun st => rfl
  rw [houts, List.getLastD_concat]
  rw [gestureRun_append, List.replicate_add, gestureRun_append]
  have h2 : gestureRun (gestureRun gestureInit [upOnly, neitherBtn])
      (List.replicate 10 neitherBtn) =
      ⟨0, 0, false, false, INPUT_IDLE⟩ := by decide
  rw [h2, gestureRun_neither_fixpoint _ rfl rfl m]
  decide

/-- Witness for claim C6 at exactly 10 intervening Neither ticks. -/
theorem double_click_window_expired_witness :
    DOUBLE_CLICK_WINDOW ≤ 10 ∧
    (gestureOutputs gestureInit
        (([upOnly, neitherBtn] ++ List.replicate 10 neitherBtn) ++ [upOnly])).getLastD
      INPUT_IDLE = INPUT_UP :=
  ⟨by decide, double_click_window_expired 10 (by decide)⟩

/-- Claim C7: whenever the recognizer is in `INPUT_DOUBLE_UP`, any
confirmed sample other than both-released keeps both the returned
gesture and the stored state at `INPUT_DOUBLE_UP`, and a both-released
(Neither) sample is exactly the one that returns it to `INPUT_IDLE`. -/
theorem double_up_sticky (st : InputState_t) (b : ButtonState_t)
    (h : st.state = INPUT_DOUBLE_UP) :
    (btn_gesture st b).1 =
      (if RELEASED b.UP && RELEASED b.DOWN then INPUT_IDLE else INPUT_DOUBLE_UP) ∧
    (btn_gesture st b).2.state =
      (if RELEASED b.UP && RELEASED b.DOWN then INPUT_IDLE else INPUT_DOUBLE_UP) := by
  have hst := decrementDoubleClickTimer_state st
  rw [h] at hst
  simp only [btn_gesture]
  rw [hst]
  dsimp only
  split <;> simp

/-- Witness for claim C7: a DownOnly press in `INPUT_DOUBLE_UP` leaves
gesture and state at `INPUT_DOUBLE_UP`. -/
theorem double_up_sticky_witness :
    (⟨3, 5, true, false, INPUT_DOUBLE_UP⟩ : InputState_t).state = INPUT_DOUBLE_UP ∧
    (btn_gesture ⟨3, 5, true, false, INPUT_DOUBLE_UP⟩ downOnly).1 = INPUT_DOUBLE_UP ∧
    (btn_gesture ⟨3, 5, true, false, INPUT_DOUBLE_UP⟩ downOnly).2.state = INPUT_DOUBLE_UP := by
  have h := double_up_sticky ⟨3, 5, true, false, INPUT_DOUBLE_UP⟩ downOnly rfl
  refine ⟨rfl, ?_, ?_⟩
  · simpa [downOnly, RELEASED] using h.1
  · simpa [downOnly, RELEASED] using h.2

/-- The confirmed-sample sequence of claim C9: a single down click
(press, release) opens the down double-click window, and an up double
click inside that window zeroes the timer while clearing only the up
waiting flag. -/
def reachSeq : List ButtonState_t := [downOnly, neitherBtn, upOnly, neitherBtn, upOnly]

/-- Claim C9: after `reachSeq` the recognizer holds `double_click_timer = 0`
with `waiting_for_second_down` still true, so the flag can never again be
cleared by timer expiry: after the release of the double-up and any number
of further confirmed Neither ticks, the very next confirmed DownOnly in
`INPUT_IDLE` returns `INPUT_DOUBLE_DOWN`. -/
theorem stale_waiting_down_flag :
    (gestureRun gestureInit reachSeq).double_click_timer = 0 ∧
    (gestureRun gestureInit reachSeq).waiting_for_second_down = true ∧
    ∀ n : Nat,
      (btn_gesture
          (gestureRun (gestureRun gestureInit reachSeq)
            (neitherBtn :: List.replicate n neitherBtn)) downOnly).1 =
        INPUT_DOUBLE_DOWN := by
  refine ⟨by decide, by decide, ?_⟩
  intro n
  have h1 : gestureRun gestureInit reachSeq = ⟨0, 0, false, true, INPUT_DOUBLE_UP⟩ := by
    decide
  rw [h1]
  show (btn_gesture
      (gestureRun (btn_gesture ⟨0, 0, false, true, INPUT_DOUBLE_UP⟩ neitherBtn).2
        (List.replicate n neitherBtn)) downOnly).1 = INPUT_DOUBLE_DOWN
  have h2 : (btn_gesture (⟨0, 0, false, true, INPUT_DOUBLE_UP⟩ : InputState_t) neitherBtn).2 =
      ⟨0, 0, false, true, INPUT_IDLE⟩ := by decide
  rw [h2, gestureRun_neither_fixpoint _ rfl rfl n]
  decide

end Bekant

namespace Bekant

/-- One step of `btn_debounce` when the raw sample equals the retained
sample and the counter is below the threshold: the counter advances and
the call confirms exactly when the incremented counter hits the
threshold, wrapping it back to 0. -/
theorem btn_debounce_const (s : ButtonState_t) (c : Nat) (hc : c < DEBOUNCE_THRESHOLD) :
    btn_debounce ⟨c, s⟩ s =
      (decide (c + 1 = DEBOUNCE_THRESHOLD), ⟨(c + 1) % DEBOUNCE_THRESHOLD, s⟩) := by
  have hc200 : c < 200 := by simpa [DEBOUNCE_THRESHOLD] using hc
  have h256 : (c + 1) % 256 = c + 1 := Nat.mod_eq_of_lt (by omega)
  simp only [btn_debounce, BUTTON_CHANGE, bne_self_eq_false, Bool.or_self, Bool.false_eq_true,
    if_false, h256, DEBOUNCE_THRESHOLD]
  by_cases h : c + 1 = 200
  · rw [if_pos (by omega)]
    simp [h]
  · rw [if_neg (by omega)]
    simp [h, Nat.mod_eq_of_lt (by omega : c + 1 < 200)]

/-- Outputs of `btn_debounce` over a constant sample run starting from a
state that has already latched the sample, with counter `c`. -/
theorem debounceOutputs_const (s : ButtonState_t) :
    ∀ (n c : Nat), c < DEBOUNCE_THRESHOLD →
      debounceOutputs ⟨c, s⟩ (List.replicate n s) =
        (List.range n).map (fun i => decide ((c + i + 1) % DEBOUNCE_THRESHOLD = 0)) := by
  intro n
  induction n with
  | zero => intro c _; rfl
  | succ n ih =>
    intro c hc
    rw [List.replicate_succ, List.range_succ_eq_map]
    show (btn_debounce ⟨c, s⟩ s).1 ::
        debounceOutputs (btn_debounce ⟨c, s⟩ s).2 (List.replicate n s) = _
    rw [btn_debounce_const s c hc, List.map_cons, List.map_map]
    simp only [DEBOUNCE_THRESHOLD] at hc ⊢
    have hhead : decide (c + 1 = 200) = decide ((c + 0 + 1) % 200 = 0) :=
      decide_eq_decide.mpr (by omega)
    have htail : debounceOutputs ⟨(c + 1) % 200, s⟩ (List.replicate n s) =
        List.map ((fun i => decide ((c + i + 1) % 200 = 0)) ∘ Nat.succ) (List.range n) := by
      have hlt : (c + 1) % 200 < 200 := Nat.mod_lt _ (by omega)
      have := ih ((c + 1) % 200) (by simpa [DEBOUNCE_THRESHOLD] using hlt)
      simp only [DEBOUNCE_THRESHOLD] at this
      rw [this]
      refine List.map_congr_left ?_
      intro i _
      simp only [Function.comp]
      exact decide_eq_decide.mpr (by omega)
    rw [hhead, htail]

/-- Claim C2: while a raw sample is held constant for `k * DEBOUNCE_THRESHOLD`
ticks after being latched (the latching change tick leaves the debouncer
at counter 0 with the sample retained), `btn_debounce` returns true
exactly at ticks `DEBOUNCE_THRESHOLD, 2 * DEBOUNCE_THRESHOLD, ...,
k * DEBOUNCE_THRESHOLD` of the run (1-indexed: tick `i` is index `i - 1`)
and false at every other tick of the run. -/
theorem debounce_periodicity (s : ButtonState_t) (k : Nat) :
    debounceOutputs ⟨0, s⟩ (List.replicate (k * DEBOUNCE_THRESHOLD) s) =
      (List.range (k * DEBOUNCE_THRESHOLD)).map
        (fun i => decide ((i + 1) % DEBOUNCE_THRESHOLD = 0)) := by
  have h := debounceOutputs_const s (k * DEBOUNCE_THRESHOLD) 0 (by decide)
  simpa using h

/-- One `btn_debounce` step can raise the counter by at most one. -/
theorem btn_debounce_count_le (d : Debounce_t) (b : ButtonState_t) :
    (btn_debounce d b).2.count ≤ d.count + 1 := by
  unfold btn_debounce
  dsimp only
  split_ifs <;> simp [Nat.mod_le]

/-- `btn_debounce` cannot confirm while the incoming counter is more than
one step below the threshold. -/
theorem btn_debounce_false_of_low (d : Debounce_t) (b : ButtonState_t)
    (h : d.count + 1 < DEBOUNCE_THRESHOLD) :
    (btn_debounce d b).1 = false := by
  have h200 : d.count + 1 < 200 := by simpa [DEBOUNCE_THRESHOLD] using h
  unfold btn_debounce
  dsimp only
  split_ifs with h1 h2 h3
  · simp [DEBOUNCE_THRESHOLD] at h2
  · rfl
  · exfalso
    have hle : (d.count + 1) % 256 ≤ d.count + 1 := Nat.mod_le _ _
    simp only [DEBOUNCE_THRESHOLD] at h3
    omega
  · rfl

/-- Every output of `btn_debounce` is false while the counter stays more
than one step below the threshold, whatever the samples do. -/
theorem debounceOutputs_getD_false :
    ∀ (bs : List ButtonState_t) (d : Debounce_t) (i : Nat),
      d.count + i + 1 < DEBOUNCE_THRESHOLD →
      (debounceOutputs d bs).getD i false = false := by
  intro bs
  induction bs with
  | nil => intro d i _; rfl
  | cons b bs ih =>
    intro d i h
    cases i with
    | zero =>
      show ((btn_debounce d b).1 :: debounceOutputs (btn_debounce d b).2 bs).getD 0 false = false
      rw [List.getD_cons_zero]
      exact btn_debounce_false_of_low d b (by simp only [DEBOUNCE_THRESHOLD] at h ⊢; omega)
    | succ i =>
      show ((btn_debounce d b).1 :: debounceOutputs (btn_debounce d b).2 bs).getD (i + 1) false
        = false
      rw [List.getD_cons_succ]
      have hcount := btn_debounce_count_le d b
      exact ih (btn_debounce d b).2 i (by simp only [DEBOUNCE_THRESHOLD] at h ⊢; omega)

/-- Claim C3: if the raw sample differs from the retained last sample at
some tick, `btn_debounce` returns false on that tick and on every one of
the following `DEBOUNCE_THRESHOLD - 1` ticks, whatever the raw samples do,
because the consecutive counter restarts from 0 on the change. -/
theorem debounce_suppression (d : Debounce_t) (b : ButtonState_t)
    (rest : List ButtonState_t) (i : Nat)
    (hch : BUTTON_CHANGE d.last_state b = true) (hi : i < DEBOUNCE_THRESHOLD) :
    (debounceOutputs d (b :: rest)).getD i false = false := by
  have hstep : btn_debounce d b = (false, ⟨0, b⟩) := by
    unfold btn_debounce
    dsimp only
    rw [if_pos hch]
    rfl
  cases i with
  | zero =>
    show ((btn_debounce d b).1 :: debounceOutputs (btn_debounce d b).2 rest).getD 0 false = false
    rw [List.getD_cons_zero, hstep]
  | succ i =>
    show ((btn_debounce d b).1 :: debounceOutputs (btn_debounce d b).2 rest).getD (i + 1) false
      = false
    rw [List.getD_cons_succ, hstep]
    exact debounceOutputs_getD_false rest ⟨0, b⟩ i
      (by simp only [DEBOUNCE_THRESHOLD] at hi ⊢; omega)

/-- Witness for claim C3: a change tick at the initial debouncer state,
checked at tick offset 150 of a 251-tick sequence. -/
theorem debounce_suppression_witness :
    BUTTON_CHANGE debounceInit.last_state neitherBtn = true ∧
    (150 : Nat) < DEBOUNCE_THRESHOLD ∧
    (debounceOutputs debounceInit
        (neitherBtn :: List.replicate 250 neitherBtn)).getD 150 false = false :=
  ⟨by decide, by decide,
    debounce_suppression debounceInit neitherBtn (List.replicate 250 neitherBtn) 150
      (by decide) (by decide)⟩

end Bekant 

namespace Bekant

/-- One `btn_gesture` step keeps the save-hold counter strictly below the
threshold: the counter is only incremented on a Both sample in
`INPUT_IDLE`, and the increment that reaches the threshold resets it to 0
while entering `INPUT_SAVE`. -/
theorem btn_gesture_save_hold_lt (st : InputState_t) (b : ButtonState_t)
    (h : st.save_hold < SAVE_HOLD_THRESHOLD) :
    (btn_gesture st b).2.save_hold < SAVE_HOLD_THRESHOLD := by
  have hsh := decrementDoubleClickTimer_save_hold st
  have hd : (decrementDoubleClickTimer st).save_hold < SAVE_HOLD_THRESHOLD := by
    rw [hsh]; exact h
  simp only [btn_gesture]
  cases hst : (decrementDoubleClickTimer st).state <;>
    simp only [hst] <;>
    split_ifs <;>
    simp_all [SAVE_HOLD_THRESHOLD]

/-- Claim C10: starting from the initial recognizer state, after any
sequence of confirmed samples the save-hold counter is in
`[0, SAVE_HOLD_THRESHOLD)`; in particular the uint8 counter never
overflows. -/
theorem save_hold_invariant (bs : List ButtonState_t) :
    (gestureRun gestureInit bs).save_hold < SAVE_HOLD_THRESHOLD := by
  have key : ∀ (l : List ButtonState_t) (st : InputState_t),
      st.save_hold < SAVE_HOLD_THRESHOLD →
      (gestureRun st l).save_hold < SAVE_HOLD_THRESHOLD := by
    intro l
    induction l with
    | nil => intro st h; exact h
    | cons b l ih =>
      intro st h
      exact ih (btn_gesture st b).2 (btn_gesture_save_hold_lt st b h)
  exact key bs gestureInit (by decide)

end Bekant

namespace Bekant

/-- On an unconfirmed tick `btn_timer` performs no callback invocation and
only advances the debouncer. -/
theorem btn_timer_unconfirmed (s : TimerState) (b : ButtonState_t)
    (h : (btn_debounce s.debouncer b).1 = false) :
    btn_timer s b = (none, { s with debouncer := (btn_debounce s.debouncer b).2 }) := by
  simp [btn_timer, h]

/-- On a confirmed tick whose gesture equals `last_input`, `btn_timer`
performs no callback invocation. -/
theorem btn_timer_confirmed_eq (s : TimerState) (b : ButtonState_t)
    (hc : (btn_debounce s.debouncer b).1 = true)
    (he : (btn_gesture s.input b).1 = s.last_input) :
    btn_timer s b =
      (none, { s with debouncer := (btn_debounce s.debouncer b).2,
                      input := (btn_gesture s.input b).2 }) := by
  simp [btn_timer, hc, he]

/-- On a confirmed tick whose gesture differs from `last_input`,
`btn_timer` invokes the callback with the new gesture and records it. -/
theorem btn_timer_confirmed_ne (s : TimerState) (b : ButtonState_t)
    (hc : (btn_debounce s.debouncer b).1 = true)
    (he : ¬ (btn_gesture s.input b).1 = s.last_input) :
    btn_timer s b =
      (some (btn_gesture s.input b).1,
        { debouncer := (btn_debounce s.debouncer b).2,
          input := (btn_gesture s.input b).2,
          last_input := (btn_gesture s.input b).1 }) := by
  simp [btn_timer, hc, he]

/-- Claim C8: over any raw sample sequence from any dispatcher state, the
callback invocations of `btn_timer` are exactly the confirmed-tick
gestures with repeats of the previously reported gesture removed: one
invocation on each confirmed tick whose gesture first differs from the
last reported gesture, and none on a tick whose gesture equals it. -/
theorem dispatch_dedup (s : TimerState) (bs : List ButtonState_t) :
    timerCalls s bs = dedupFrom s.last_input (pipelineGestures s.debouncer s.input bs) := by
  induction bs generalizing s with
  | nil => rfl
  | cons b bs ih =>
    by_cases hc : (btn_debounce s.debouncer b).1 = true
    · by_cases he : (btn_gesture s.input b).1 = s.last_input
      · have ht := btn_timer_confirmed_eq s b hc he
        simp only [timerCalls, ht, pipelineGestures, hc, if_true, dedupFrom, he, if_pos]
        exact ih _
      · have ht := btn_timer_confirmed_ne s b hc he
        simp only [timerCalls, ht, pipelineGestures, hc, if_true, dedupFrom, if_neg he]
        rw [ih]
    · have hcf : (btn_debounce s.debouncer b).1 = false := by
        cases h' : (btn_debounce s.debouncer b).1
        · rfl
        · exact absurd h' hc
      have ht := btn_timer_unconfirmed s b hcf
      simp only [timerCalls, ht, pipelineGestures, hcf, Bool.false_eq_true, if_false]
      exact ih _

end Bekant
